import Mathlib

/-!
Shallow embedding of the indexeddb façade crate (src/src/lib.rs, db.rs,
object_store.rs, transaction.rs, request.rs): the host-value model, the
KeyPath conversions, the version cast, the upgrade-scoped store creation,
the open/transaction entry points and the transaction future's state
machine, with theorems settling the frozen claims about them.
-/

/-- Model of the host's dynamic value type (`wasm_bindgen::JsValue`) as the
core observes it: it distinguishes `null`, `undefined`, strings and arrays
(`object_store.rs` lines 128-154 inspect exactly these), and treats every
other host value as an opaque tagged datum. -/
inductive JsValue where
  | null
  | undefined
  | str (s : String)
  | arr (elems : List JsValue)
  | other (tag : String)

/-- Model of `JsValue::is_null`. -/
def JsValue.is_null : JsValue → Bool
  | .null => true
  | _ => false

/-- Model of `JsValue::is_undefined`. -/
def JsValue.is_undefined : JsValue → Bool
  | .undefined => true
  | _ => false

/-- Model of `JsValue::as_string`: the string payload when the value is a
host string, nothing otherwise. -/
def JsValue.as_string : JsValue → Option String
  | .str s => some s
  | _ => none

/-- Model of `val.dyn_into::<js_sys::Array>()`: the element list when the
value is a host array, the value itself as the error otherwise. -/
def JsValue.dyn_into_array : JsValue → Except JsValue (List JsValue)
  | .arr elems => .ok elems
  | v => .error v

/-- Model of `KeyPath` (object_store.rs lines 107-116): how a record's
primary key is derived. -/
inductive KeyPath where
  | none
  | single (path : String)
  | multi (paths : List String)
deriving DecidableEq, Repr

/-- Model of `impl From<KeyPath> for JsValue` (object_store.rs lines
118-126): `None` becomes `null`, `Single` the string, `Multi` an array of
strings. -/
def KeyPath.toJsValue : KeyPath → JsValue
  | .none => JsValue.null
  | .single path => JsValue.str path
  | .multi paths => JsValue.arr (paths.map JsValue.str)

/-- Model of the element loop of `impl From<JsValue> for KeyPath`
(object_store.rs lines 140-149): collect the string payloads, and a
non-string element is a defect (`Option.none` stands for the process
aborting). -/
def collectStrings : List JsValue → Option (List String)
  | [] => some []
  | JsValue.str s :: rest => (collectStrings rest).map (s :: ·)
  | _ :: _ => none

/-- Model of `impl From<JsValue> for KeyPath` (object_store.rs lines
128-154). `Option.none` stands for the conversion aborting (it does so on a
value that is neither null, undefined, a string, nor an array of strings). -/
def KeyPath.fromJsValue (val : JsValue) : Option KeyPath :=
  if val.is_null || val.is_undefined then
    some KeyPath.none
  else
    match val.as_string with
    | some s => some (KeyPath.single s)
    | Option.none =>
      match val.dyn_into_array with
      | .error _ => Option.none
      | .ok elems => (collectStrings elems).map KeyPath.multi

/-- Model of `cast_version` (lib.rs lines 157-162) over exact rationals:
every IEEE double the Engine can report is a rational, and the two bounds of
the source (`0.0` and `u32::max_value() as f64 = 4294967295.0`) are exactly
representable, so the comparisons agree with the source's float comparisons.
The result is `Option.none` when the source's out-of-bounds branch fires
(the process aborts), and otherwise the truncation `val as u32`. -/
def cast_version (val : ℚ) : Option ℕ :=
  if val < 0 ∨ val > 4294967295 then Option.none
  else some (Int.toNat ⌊val⌋)

/-- Model of `DbDuringUpgrade::store_exists` (db.rs lines 103-108): whether
the database's object-store name inventory already holds `name`. -/
def DbDuringUpgrade.store_exists (stores : List String) (name : String) : Bool :=
  stores.any (fun store => store == name)

/-- Message of the duplicate-name error branch of
`DbDuringUpgrade::create_object_store` (db.rs line 63). -/
def duplicateStoreMessage (name : String) : String :=
  "an object store called \"" ++ name ++ "\" already exists"

/-- Parameters of one `createObjectStore` call issued to the Engine (db.rs
lines 66-76): the store name, the key-path host value put into
`IdbObjectStoreParameters`, and the auto-increment flag. -/
structure EngineCreateCall where
  name : String
  keyPath : JsValue
  autoIncrement : Bool

/-- Model of the object store the Engine hands back from a create call: its
`key_path()` reads back the host value it was created with through
`KeyPath::from` (object_store.rs lines 29-31), and `auto_increment()` the
flag it was created with (object_store.rs lines 34-36). -/
structure ObjectStoreModel where
  name : String
  keyPathJs : JsValue
  autoIncrement : Bool

/-- Model of `ObjectStoreDuringUpgrade::key_path` (object_store.rs lines
29-31). -/
def ObjectStoreModel.key_path (s : ObjectStoreModel) : Option KeyPath :=
  KeyPath.fromJsValue s.keyPathJs

/-- Outcome of one `DbDuringUpgrade::create_object_store` call: the returned
value, the store inventory afterwards, and the Engine create calls the call
issued. -/
structure CreateOutcome where
  result : Except String ObjectStoreModel
  stores : List String
  engineCreates : List EngineCreateCall

/-- Model of `DbDuringUpgrade::create_object_store` (db.rs lines 58-82):
when a store of that name already exists it returns the duplicate-name
error without touching the Engine; otherwise it asks the Engine to create
the store, with the key path fixed to `KeyPath::None` (as a host value:
null) and the auto-increment flag fixed to `false` (db.rs lines 66-71). The
Engine adds a store created under a fresh name during a live upgrade, so
the inventory gains `name`. -/
def DbDuringUpgrade.create_object_store (stores : List String) (name : String) :
    CreateOutcome :=
  if DbDuringUpgrade.store_exists stores name then
    { result := .error (duplicateStoreMessage name)
      stores := stores
      engineCreates := [] }
  else
    { result := .ok { name := name
                      keyPathJs := KeyPath.toJsValue KeyPath.none
                      autoIncrement := false }
      stores := stores ++ [name]
      engineCreates := [{ name := name
                          keyPath := KeyPath.toJsValue KeyPath.none
                          autoIncrement := false }] }

/-- Outcome of the pre-await phase of `IndexedDb::open` (db.rs lines
157-170): whether the version fail-fast branch fired (db.rs lines 162-164),
whether the Engine factory was contacted, and the call's result.
`Option.none` in `outcome` stands for the process aborting; an Engine
rejection of `factory().open_with_u32` propagates through the source's `?`
operator as `Err`. -/
structure OpenOutcome where
  versionPanic : Bool
  engineContacted : Bool
  outcome : Option (Except JsValue Unit)

/-- Model of `IndexedDb::open` up to the await (db.rs lines 157-170):
version `0` hits the fail-fast branch before any Engine call; otherwise the
factory is asked to open the database, `factoryOpen` standing for the
Engine's synchronous response (the opaque open request on success). The
standalone `open` of lib.rs lines 31-40 performs the same version check
before its Engine call. -/
def IndexedDb.openModel (version : ℕ) (factoryOpen : Except JsValue Unit) :
    OpenOutcome :=
  if version = 0 then
    { versionPanic := true, engineContacted := false, outcome := Option.none }
  else
    { versionPanic := false, engineContacted := true, outcome := some factoryOpen }

/-- Model of `IndexedDb::transaction` (db.rs lines 218-231): the Engine's
response to `transaction_with_str_sequence_and_mode` is unwrapped, so a
synchronous rejection is a process abort (`Option.none` here), never an
`Err` returned to the caller; on success the caller gets the transaction
handle. -/
def IndexedDb.transactionModel (engineTransaction : Except JsValue Unit) :
    Option Unit :=
  match engineTransaction with
  | .ok t => some t
  | .error _ => Option.none

/-- Model of `TransactionState` (transaction.rs lines 110-116). -/
inductive TransactionState where
  | pending
  | completed
  | error
  | aborted
deriving DecidableEq, Repr

/-- Events the Engine can deliver to the callbacks a polled
`TransactionFuture` registered (transaction.rs lines 170-194). -/
inductive TxEvent where
  | complete
  | error
  | abort
deriving DecidableEq, Repr

/-- State the closure registered for the event writes into the shared state
cell (transaction.rs lines 170-192): `on_complete` writes `Completed`,
`on_error` writes `Error`, `on_abort` writes `Aborted`. -/
def TxEvent.target : TxEvent → TransactionState
  | .complete => .completed
  | .error => .error
  | .abort => .aborted

/-- One Engine event delivered to a polled `TransactionFuture`: each
registered closure assigns the shared state cell unconditionally, ignoring
the state already stored there (transaction.rs lines 170-192). -/
def TransactionState.applyEvent : TransactionState → TxEvent → TransactionState :=
  fun _ e => e.target

/-- State of the cell after the Engine delivers `events` in order to a
future that was polled while pending (which registered the three closures),
starting from the initial `Pending` (transaction.rs line 131). -/
def Transaction.runEvents (events : List TxEvent) : TransactionState :=
  events.foldl TransactionState.applyEvent TransactionState.pending

/-- Ready branches of `TransactionFuture::poll` (transaction.rs lines
165-201): `Option.none` is `Poll::Pending`; a terminal state yields the
transaction's result, `txError` standing for `self.inner.error().into()`. -/
def TransactionFuture.pollReady (txError : JsValue) :
    TransactionState → Option (Except JsValue Unit)
  | .pending => Option.none
  | .completed => some (.ok ())
  | .error => some (.error txError)
  | .aborted => some (.error JsValue.undefined)

/-- Result `Transaction::done` (transaction.rs lines 92-97) resolves with
once the Engine has delivered `events` to its freshly constructed
`TransactionFuture` and the caller polls again. -/
def Transaction.doneResolve (txError : JsValue) (events : List TxEvent) :
    Option (Except JsValue Unit) :=
  TransactionFuture.pollReady txError (Transaction.runEvents events)

/-- Result `Transaction::abort` (transaction.rs lines 101-106) resolves
with: its body is the body of `Transaction::done` verbatim - it clones the
Engine handle and awaits a fresh `TransactionFuture`, performing no
cancellation of its own. -/
def Transaction.abortResolve (txError : JsValue) (events : List TxEvent) :
    Option (Except JsValue Unit) :=
  TransactionFuture.pollReady txError (Transaction.runEvents events)

/-- Calls made on the `IdbTransaction` Engine handle; `abortTransaction`
stands for `IdbTransaction::abort`, which the crate never invokes, so its
absence from a trace is expressible. -/
inductive EngineTxCall where
  | setOnComplete
  | setOnError
  | setOnAbort
  | abortTransaction
deriving DecidableEq, Repr

/-- Engine calls one poll of `TransactionFuture` makes in the given state
(transaction.rs lines 142-158 and 164-202): a pending poll registers the
three event callbacks; a ready poll makes none. -/
def TransactionFuture.pollEngineCalls : TransactionState → List EngineTxCall
  | .pending => [.setOnComplete, .setOnError, .setOnAbort]
  | _ => []

/-- Engine calls made through `Transaction::abort` when its future is polled
after `events`: the method itself calls nothing on the Engine before
awaiting (transaction.rs lines 101-106), so only the future's callback
registrations appear. -/
def Transaction.abortEngineCalls (events : List TxEvent) : List EngineTxCall :=
  TransactionFuture.pollEngineCalls (Transaction.runEvents events)

/-- Model of the Engine's `get` on an object store backed by the partial map
`store`: a stored value is yielded as is; a key never written yields
`undefined` (the host Engine's behaviour for a missing key). -/
def engineGet (store : JsValue → Option JsValue) (key : JsValue) : JsValue :=
  match store key with
  | some v => v
  | Option.none => JsValue.undefined

/-- Decoding step of `ObjectStore::get` (object_store.rs lines 74-80) on the
awaited request outcome: an Engine error passes through as `Err`; a yielded
value that is undefined or null maps to `Ok(None)`; any other value is
decoded, a decode failure being a defect (the outer `Option.none` stands
for the process aborting at the source's `expect`). -/
def ObjectStore.getDecode {V : Type} (decode : JsValue → Option V)
    (awaited : Except JsValue JsValue) : Option (Except JsValue (Option V)) :=
  match awaited with
  | .error e => some (.error e)
  | .ok object =>
    if object.is_undefined || object.is_null then some (.ok Option.none)
    else
      match decode object with
      | some v => some (.ok (some v))
      | Option.none => Option.none

/-- Model of `ObjectStore::get` (object_store.rs lines 65-81) on the success
path of the request adapter: the Engine yields the value stored under the
serialized key and the result is decoded as in `ObjectStore.getDecode`. -/
def ObjectStore.getModel {V : Type} (decode : JsValue → Option V)
    (store : JsValue → Option JsValue) (key : JsValue) :
    Option (Except JsValue (Option V)) :=
  ObjectStore.getDecode decode (.ok (engineGet store key))

/-- Helper: the element loop of the KeyPath back-conversion collects exactly
the payloads of a list of host strings. -/
theorem collectStrings_map_str (paths : List String) :
    collectStrings (paths.map JsValue.str) = some paths := by
  induction paths with
  | nil => rfl
  | cons p rest ih => simp [collectStrings, ih]

/-- C5: for every KeyPath value kp, of each variant, converting kp to the
host value representation and back returns kp (and the back conversion
does not abort). -/
theorem KeyPath.from_into_roundtrip (kp : KeyPath) :
    KeyPath.fromJsValue (KeyPath.toJsValue kp) = some kp := by
  cases kp with
  | none => rfl
  | single path => rfl
  | multi paths =>
    simp [KeyPath.toJsValue, KeyPath.fromJsValue, JsValue.is_null,
      JsValue.is_undefined, JsValue.as_string, JsValue.dyn_into_array,
      collectStrings_map_str]

/-- C4 counterexample: the version cast accepts 0 (the code's own test
test_cast asserts this), though 0 lies outside the claimed range of
accepted values, and it aborts on 8589934591/2 = 4294967295.5, though that
value lies inside the claimed range of accepted values. -/
theorem cast_version_zero_accepted :
    cast_version 0 = some 0 ∧
    cast_version (8589934591 / 2) = Option.none ∧
    (1 : ℚ) ≤ 8589934591 / 2 ∧ (8589934591 / 2 : ℚ) < 2 ^ 32 := by
  refine ⟨?_, ?_, by norm_num, by norm_num⟩
  · rw [cast_version]
    norm_num
  · rw [cast_version]
    norm_num

/-- C4 amended: the cast of the Engine's floating-point version accepts v
exactly when v lies in the closed interval from 0 to 2^32 - 1 = 4294967295,
and aborts for every value outside that interval; in particular v = 0 is
accepted (and cast to 0). -/
theorem cast_version_accepts_iff (v : ℚ) :
    (cast_version v).isSome = true ↔ 0 ≤ v ∧ v ≤ 4294967295 := by
  rw [cast_version]
  split
  · rename_i h
    simp only [Option.isSome_none, Bool.false_eq_true, false_iff, not_and]
    intro h0
    rcases h with h | h
    · exact absurd h0 (not_le.mpr h)
    · exact not_le.mpr h
  · rename_i h
    push_neg at h
    simp only [Option.isSome_some, true_iff]
    exact h

/-- C3 counterexample: deliver a complete event and then an abort event to a
polled transaction future - the state first reaches the terminal
Completed and then transitions again to Aborted, so a terminal state does
not stick and the first observed event does not win. -/
theorem runEvents_overwrites_terminal :
    Transaction.runEvents [TxEvent.complete] = TransactionState.completed ∧
    Transaction.runEvents [TxEvent.complete, TxEvent.abort] = TransactionState.aborted ∧
    TransactionState.aborted ≠ TransactionState.completed :=
  ⟨rfl, rfl, by decide⟩

/-- C3 amended: each delivered event overwrites the state cell
unconditionally, so after any nonempty event sequence the state is the
terminal of the LAST delivered event (the last observed wins, and a later
event does overwrite an earlier terminal state); the state starts Pending;
and done() and abort() construct identical futures, so over the same
delivered events they resolve to the same result. -/
theorem runEvents_last_event_wins (events : List TxEvent) (e : TxEvent)
    (txError : JsValue) :
    Transaction.runEvents (events ++ [e]) = e.target ∧
    Transaction.runEvents [] = TransactionState.pending ∧
    Transaction.doneResolve txError events = Transaction.abortResolve txError events := by
  refine ⟨?_, rfl, rfl⟩
  simp [Transaction.runEvents, List.foldl_append, TransactionState.applyEvent]

/-- C1: Transaction::abort shares its body with Transaction::done - when the
Engine completes the transaction, the awaitable abort returns resolves
with Ok(()), not an abort-indicating error, and no call to the Engine's
IdbTransaction::abort is ever made (neither before the first poll nor at
any later one), so abort does not cancel the transaction. -/
theorem abort_resolves_ok_and_never_cancels :
    Transaction.abortResolve JsValue.undefined [TxEvent.complete] = some (Except.ok ()) ∧
    (Transaction.abortEngineCalls []).contains EngineTxCall.abortTransaction = false ∧
    (Transaction.abortEngineCalls [TxEvent.complete]).contains
      EngineTxCall.abortTransaction = false ∧
    Transaction.abortResolve = Transaction.doneResolve :=
  ⟨rfl, rfl, rfl, rfl⟩

/-- C6: create_object_store on the upgrade-scoped handle returns the
duplicate-name error exactly when a store of that name is already in the
inventory; the error message contains the name; and on a fresh name the
call succeeds. -/
theorem create_object_store_duplicate_error_iff (stores : List String)
    (name : String) :
    ((DbDuringUpgrade.create_object_store stores name).result =
        Except.error (duplicateStoreMessage name) ↔
      DbDuringUpgrade.store_exists stores name = true) ∧
    name.data <:+: (duplicateStoreMessage name).data ∧
    (DbDuringUpgrade.store_exists stores name = false →
      (DbDuringUpgrade.create_object_store stores name).result.isOk = true) := by
  refine ⟨?_, ?_, ?_⟩
  · cases h : DbDuringUpgrade.store_exists stores name <;>
      simp [DbDuringUpgrade.create_object_store, h]
  · refine ⟨"an object store called \"".data, "\" already exists".data, ?_⟩
    simp [duplicateStoreMessage, String.data_append]
  · intro h
    simp [DbDuringUpgrade.create_object_store, h, Except.isOk, Except.toBool]

/-- C10: whenever create_object_store returns its error, no Engine create
call has been made and the store inventory is exactly what it was before
the call. -/
theorem create_object_store_error_atomicity (stores : List String) (name : String)
    (h : (DbDuringUpgrade.create_object_store stores name).result.isOk = false) :
    (DbDuringUpgrade.create_object_store stores name).engineCreates = [] ∧
    (DbDuringUpgrade.create_object_store stores name).stores = stores := by
  cases hs : DbDuringUpgrade.store_exists stores name
  · exfalso
    simp [DbDuringUpgrade.create_object_store, hs, Except.isOk, Except.toBool] at h
  · simp [DbDuringUpgrade.create_object_store, hs]

/-- C10 witness: during an upgrade where "dup" already exists, the failing
duplicate create of "dup" issues no Engine call and leaves the inventory
unchanged. -/
theorem create_object_store_error_atomicity_witness :
    (DbDuringUpgrade.create_object_store ["dup"] "dup").engineCreates = [] ∧
    (DbDuringUpgrade.create_object_store ["dup"] "dup").stores = ["dup"] :=
  create_object_store_error_atomicity ["dup"] "dup" rfl

/-- C2: evaluated at the repository's own test input (tests/web.rs creates
"test2" with KeyPath::Single("test") and auto-increment true during an
upgrade where only "test" exists): create_object_store accepts no key-path
or auto-increment argument and asks the Engine for key path null and
auto-increment false, so the created store reads back KeyPath.none and
false rather than the requested single path and true. -/
theorem create_object_store_ignores_parameters :
    (DbDuringUpgrade.create_object_store ["test"] "test2").engineCreates =
      [{ name := "test2", keyPath := JsValue.null, autoIncrement := false }] ∧
    (DbDuringUpgrade.create_object_store ["test"] "test2").result =
      Except.ok { name := "test2", keyPathJs := JsValue.null, autoIncrement := false } ∧
    ObjectStoreModel.key_path
        { name := "test2", keyPathJs := JsValue.null, autoIncrement := false } =
      some KeyPath.none ∧
    some KeyPath.none ≠ some (KeyPath.single "test") :=
  ⟨rfl, rfl, rfl, by decide⟩

/-- C7: ObjectStore::get returns Ok(None) exactly when the host value the
Engine yields is null or undefined - in particular for every key never
written, since the Engine yields undefined for a missing key - and any
other yielded value is decoded and returned as Ok(Some v). -/
theorem get_none_iff_null_or_undefined {V : Type} (decode : JsValue → Option V)
    (store : JsValue → Option JsValue) (key : JsValue) (v : JsValue) (x : V) :
    (ObjectStore.getDecode decode (Except.ok v) = some (Except.ok Option.none) ↔
      (v.is_null = true ∨ v.is_undefined = true)) ∧
    (store key = Option.none →
      ObjectStore.getModel decode store key = some (Except.ok Option.none)) ∧
    (v.is_null = false → v.is_undefined = false → decode v = some x →
      ObjectStore.getDecode decode (Except.ok v) = some (Except.ok (some x))) := by
  refine ⟨?_, ?_, ?_⟩
  · cases hnull : v.is_null <;> cases hundef : v.is_undefined <;>
      cases hd : decode v <;>
        simp [ObjectStore.getDecode, hnull, hundef, hd]
  · intro h
    simp [ObjectStore.getModel, engineGet, h, ObjectStore.getDecode,
      JsValue.is_undefined]
  · intro hnull hundef hd
    simp [ObjectStore.getDecode, hnull, hundef, hd]

/-- C8 counterexample: a synchronous Engine rejection of the transaction
call is unwrapped inside IndexedDb::transaction, so the model aborts
(Option.none, a process abort) instead of handing the caller an Err with
the host error. -/
theorem transaction_rejection_panics :
    IndexedDb.transactionModel (Except.error (JsValue.other "SecurityError")) =
      Option.none ∧
    (IndexedDb.transactionModel
        (Except.error (JsValue.other "SecurityError"))).isSome = false :=
  ⟨rfl, rfl⟩

/-- C8 amended: a synchronous Engine rejection during open surfaces to the
caller as Err carrying the host error (for every version the fail-fast
check lets through), while a synchronous Engine rejection during
transaction creation is unwrapped and aborts the process instead of
surfacing as Err. -/
theorem open_surfaces_rejection_transaction_panics (e : JsValue) (v : ℕ) :
    (IndexedDb.openModel (v + 1) (Except.error e)).outcome =
      some (Except.error e) ∧
    IndexedDb.transactionModel (Except.error e) = Option.none := by
  exact ⟨by simp [IndexedDb.openModel], rfl⟩

/-- C9: open with version 0 always hits the fail-fast branch before any
Engine call is made (the Engine is not contacted and the process aborts),
and for every version of the form v + 1 (every version at least 1) the
fail-fast branch is not taken. -/
theorem open_version_zero_fails_fast (factoryOpen : Except JsValue Unit) (v : ℕ) :
    (IndexedDb.openModel 0 factoryOpen).versionPanic = true ∧
    (IndexedDb.openModel 0 factoryOpen).engineContacted = false ∧
    (IndexedDb.openModel 0 factoryOpen).outcome = Option.none ∧
    (IndexedDb.openModel (v + 1) factoryOpen).versionPanic = false ∧
    (IndexedDb.openModel (v + 1) factoryOpen).engineContacted = true := by
  refine ⟨rfl, rfl, rfl, ?_, ?_⟩ <;> simp [IndexedDb.openModel]
